import Mathlib

/-
Verification of the transaction-processing core of the mamar-bank repository
(`transactions/views.py`): deposits, withdrawals, loan requests with a
count-based cap, loan payoff, and the transaction report's date filter.

The Django views are embedded shallowly: the persisted database state is an
explicit value (account balances plus the transaction ledger), each view's
`form_valid`/`get` body becomes a pure function from that state to a new state
together with an outcome describing the HTTP-visible result (success message,
error message, redirect target, 404, or an uncaught exception).  A possible
failure of a `save()` call on the store is modelled by a Boolean flag passed to
the operation: `true` means that save raises, and the function then returns
whatever the source's control flow produces in that case (a caught error
message, or a propagated exception modelled as `Except.error`).
-/

namespace MamarBank

/-- Modelled from the spec: `transactions/constants.py` is not under `src/`;
the spec's data model gives the transaction-type enum as
DEPOSIT, WITHDRAWAL, LOAN, LOAN_PAID. -/
inductive TransactionType where
  | DEPOSIT
  | WITHDRAWAL
  | LOAN
  | LOAN_PAID
deriving DecidableEq

/-- A creation instant.  The report filter compares only the calendar date
component (`timestamp__date__range` in the source), so the date is kept
separate from the time of day.  Dates are abstracted as naturals ordered
chronologically. -/
structure Timestamp where
  date : Nat
  time : Nat
deriving DecidableEq

/-- Modelled from the spec: `transactions/models.py` is not under `src/`; the
spec's data model lists the ledger-record fields: id, owning account, amount,
transaction_type, loan_approve, balance_after_transaction, timestamp.
Currency amounts are exact decimals in the source, embedded as integers (in
the smallest currency unit); no rounding is involved anywhere in the core. -/
structure Transaction where
  id : Nat
  account : Nat
  amount : Int
  transaction_type : TransactionType
  loan_approve : Bool
  balance_after_transaction : Int
  timestamp : Timestamp
deriving DecidableEq

/-- Modelled from the spec: the account model lives in the `accounts` app, not
under `src/`; the spec gives it an id and a balance (exact decimal, may be
negative). -/
structure Account where
  id : Nat
  balance : Int
deriving DecidableEq

/-- The persisted database state seen by `PayLoanView`: the account rows and
the transaction ledger. -/
structure BankState where
  accounts : List Account
  ledger : List Transaction
deriving DecidableEq

/-- Modelled from the spec: `transactions/forms.py` is not under `src/`; per
the spec the form layer validates `amount > 0` and its `save` builds the
ledger row with the given type and amount, the balance snapshot after the
operation in `balance_after_transaction`, and `loan_approve` at its default
`false` (pending approval). -/
def mkFormRecord (newId : Nat) (ts : Timestamp) (accId : Nat)
    (ty : TransactionType) (amount : Int) (balanceAfter : Int) : Transaction :=
  { id := newId
    account := accId
    amount := amount
    transaction_type := ty
    loan_approve := false
    balance_after_transaction := balanceAfter
    timestamp := ts }

/-- The store raised while writing. -/
inductive PersistenceError where
  | persistenceFailure
deriving DecidableEq

/-- Outcome of `DepositMoneyView.form_valid`: either the success message plus
the new record, or the caught-exception branch (error message, redirect to the
transaction report, record creation aborted). -/
inductive DepositOutcome where
  | success
  | depositFailed
deriving DecidableEq

/-- `DepositMoneyView.form_valid` (src/transactions/views.py:61-83): add the
amount to the balance and save inside a try block; on any exception the error
is caught, a failure message is emitted and the handler redirects before the
record is created; otherwise `super().form_valid(form)` saves the form,
appending the DEPOSIT record. -/
def deposit (persistFails : Bool) (account : Account) (ledger : List Transaction)
    (amount : Int) (newId : Nat) (ts : Timestamp) :
    Account × List Transaction × DepositOutcome :=
  if persistFails then
    (account, ledger, .depositFailed)
  else
    let newBalance := account.balance + amount
    ({ account with balance := newBalance },
     ledger ++ [mkFormRecord newId ts account.id .DEPOSIT amount newBalance],
     .success)

/-- `WithdrawMoneyView.form_valid` (src/transactions/views.py:93-110):
subtract the amount — with no sufficient-funds check — and save.  Unlike the
deposit handler there is no try/except here, so a failure of the balance save
propagates to the caller as an uncaught exception, modelled as
`Except.error`. -/
def withdraw (persistFails : Bool) (account : Account) (ledger : List Transaction)
    (amount : Int) (newId : Nat) (ts : Timestamp) :
    Except PersistenceError (Account × List Transaction) :=
  if persistFails then
    .error .persistenceFailure
  else
    let newBalance := account.balance - amount
    .ok ({ account with balance := newBalance },
         ledger ++ [mkFormRecord newId ts account.id .WITHDRAWAL amount newBalance])

/-- Outcome of `LoanRequestView.form_valid`: the loan-limit `HttpResponse`, or
the success message plus the new pending record. -/
inductive LoanRequestOutcome where
  | limitExceeded
  | submitted
deriving DecidableEq

/-- The count computed at src/transactions/views.py:124-128: existing ledger
records of this account with `transaction_type=LOAN` and
`loan_approve=True`. -/
def approvedLoanCount (account : Account) (ledger : List Transaction) : Nat :=
  (ledger.filter (fun t =>
    t.account == account.id && t.transaction_type == .LOAN && t.loan_approve)).length

/-- `LoanRequestView.form_valid` (src/transactions/views.py:120-143): if the
approved-loan count is already at least 3, return the loan-limit response
without touching anything; otherwise append the LOAN record (pending,
`loan_approve=false`).  The balance is never modified here. -/
def requestLoan (account : Account) (ledger : List Transaction)
    (amount : Int) (newId : Nat) (ts : Timestamp) :
    Account × List Transaction × LoanRequestOutcome :=
  if approvedLoanCount account ledger ≥ 3 then
    (account, ledger, .limitExceeded)
  else
    (account,
     ledger ++ [mkFormRecord newId ts account.id .LOAN amount account.balance],
     .submitted)

/-- `account.save(update_fields=["balance"])`: write the new balance into the
account row with this id. -/
def saveBalance (accounts : List Account) (accId : Nat) (newBalance : Int) :
    List Account :=
  accounts.map (fun a => if a.id == accId then { a with balance := newBalance } else a)

/-- `loan.save()` after the in-place field rewrites at
src/transactions/views.py:181-183: the row with the loan's id is overwritten
with `transaction_type = LOAN_PAID` and the new balance snapshot; no row is
inserted or deleted. -/
def saveLoanPaid (ledger : List Transaction) (loan : Transaction)
    (newBalance : Int) : List Transaction :=
  ledger.map (fun t =>
    if t.id == loan.id then
      { loan with transaction_type := .LOAN_PAID, balance_after_transaction := newBalance }
    else t)

/-- Error messages `PayLoanView.get` can emit. -/
inductive PayLoanMessage where
  | insufficientBalance
  | paymentFailed
deriving DecidableEq

/-- Result of `PayLoanView.get`: a 404 from `get_object_or_404`, a hard fault
if the record's foreign key resolves to no account row, or the redirect to the
loan list together with the resulting state and the error message, if any. -/
inductive PayLoanResult where
  | notFound
  | accountMissing
  | redirected (st : BankState) (err : Option PayLoanMessage)
deriving DecidableEq

/-- `PayLoanView.get` (src/transactions/views.py:170-189): look the record up
by id alone (404 when absent), take its owning account, and only when
`loan_approve` is set and the balance covers the amount: subtract, save the
balance, then rewrite the same record to LOAN_PAID and save it.  Both saves
sit in one try block; a failure of the first leaves everything unchanged, a
failure of the second leaves the balance already decremented (the record
rewrite happened only in memory).  Every non-404 path redirects to the loan
list.  The requesting user is never consulted. -/
def payLoan (balanceSaveFails loanSaveFails : Bool) (st : BankState)
    (loanId : Nat) (requester : Nat) : PayLoanResult :=
  match st.ledger.find? (fun t => t.id == loanId) with
  | none => .notFound
  | some loan =>
    match st.accounts.find? (fun a => a.id == loan.account) with
    | none => .accountMissing
    | some account =>
      if loan.loan_approve then
        if account.balance ≥ loan.amount then
          if balanceSaveFails then
            .redirected st (some .paymentFailed)
          else
            let newBalance := account.balance - loan.amount
            if loanSaveFails then
              .redirected ⟨saveBalance st.accounts account.id newBalance, st.ledger⟩
                (some .paymentFailed)
            else
              .redirected
                ⟨saveBalance st.accounts account.id newBalance,
                 saveLoanPaid st.ledger loan newBalance⟩
                none
        else
          .redirected st (some .insufficientBalance)
      else
        .redirected st none

/-- `TransactionReportView.get_queryset` (src/transactions/views.py:150-162):
records of the requesting user's account; only when BOTH `start_date` and
`end_date` are supplied and non-empty (Python truthiness of the GET
parameters, `none` here standing for absent-or-empty) is the queryset further
filtered to timestamps whose calendar date lies in the inclusive range. -/
def transactionReport (ledger : List Transaction) (accId : Nat)
    (start_date end_date : Option Nat) : List Transaction :=
  let queryset := ledger.filter (fun t => t.account == accId)
  match start_date, end_date with
  | some s, some e =>
      queryset.filter (fun t => decide (s ≤ t.timestamp.date) && decide (t.timestamp.date ≤ e))
  | _, _ => queryset

/-- Example timestamp for instantiating theorems at concrete inputs. -/
def exTs : Timestamp := ⟨0, 0⟩

/-- Example account for instantiating theorems at concrete inputs. -/
def exAccount : Account := { id := 0, balance := 100 }

/-- An approved loan record of account 0, used as example data. -/
def approvedLoanRec (i : Nat) : Transaction :=
  { id := i
    account := 0
    amount := 500
    transaction_type := .LOAN
    loan_approve := true
    balance_after_transaction := 100
    timestamp := ⟨0, 0⟩ }

/-- Three approved loans of account 0: the loan cap is reached. -/
def exLedger3 : List Transaction := [approvedLoanRec 1, approvedLoanRec 2, approvedLoanRec 3]

/-- An approved loan of 300 for account 0, example data for payoff. -/
def exLoanRec : Transaction :=
  { id := 1
    account := 0
    amount := 300
    transaction_type := .LOAN
    loan_approve := true
    balance_after_transaction := 0
    timestamp := ⟨0, 0⟩ }

/-- Account 0 holds 1000 and owes the approved 300 loan. -/
def exPayState : BankState := ⟨[⟨0, 1000⟩], [exLoanRec]⟩

/-- Account 0 holds only 100, less than the approved 300 loan. -/
def exPoorState : BankState := ⟨[⟨0, 100⟩], [exLoanRec]⟩

/-- Account 0 holds 1000 and has a pending (unapproved) loan request. -/
def exPendingState : BankState :=
  ⟨[⟨0, 1000⟩], [{ exLoanRec with loan_approve := false }]⟩

/-- Looking a row up by a key that a row-level rewrite preserves commutes with
the rewrite: used to read back the saved account row and the rewritten loan
record. -/
theorem find?_map_key {α : Type} (f : α → α) (p : α → Bool) (l : List α)
    (h : ∀ t, p (f t) = p t) : (l.map f).find? p = (l.find? p).map f := by
  induction l with
  | nil => rfl
  | cons a l ih =>
    by_cases hpa : p a = true
    · rw [List.map_cons, List.find?_cons_of_pos _ (by rw [h a]; exact hpa),
        List.find?_cons_of_pos _ hpa]
      rfl
    · rw [List.map_cons, List.find?_cons_of_neg _ (by rw [h a]; exact hpa),
        List.find?_cons_of_neg _ hpa, ih]

/-- A row-level rewrite that does not move rows across the filter predicate
keeps the filtered count unchanged. -/
theorem filter_map_length_congr {α : Type} (g : α → α) (p : α → Bool) (l : List α)
    (h : ∀ t ∈ l, p (g t) = p t) :
    ((l.map g).filter p).length = (l.filter p).length := by
  induction l with
  | nil => rfl
  | cons a l ih =>
    have ha := h a (List.mem_cons_self a l)
    have hl := ih fun t ht => h t (List.mem_cons_of_mem a ht)
    simp only [List.map_cons, List.filter_cons, ha]
    by_cases hpa : p a = true <;> simp [hpa, hl]

/-- Claim C1: a loan request is answered with the loan-limit response iff the
account already has at least 3 ledger records with type LOAN and
loan_approve set, and on that rejection no record is created and the balance
is unchanged. -/
theorem requestLoan_limit (account : Account) (ledger : List Transaction)
    (amount : Int) (newId : Nat) (ts : Timestamp) (hpos : 0 < amount) :
    ((requestLoan account ledger amount newId ts).2.2 = .limitExceeded ↔
        3 ≤ approvedLoanCount account ledger) ∧
      (3 ≤ approvedLoanCount account ledger →
        requestLoan account ledger amount newId ts = (account, ledger, .limitExceeded)) := by
  unfold requestLoan
  by_cases h : 3 ≤ approvedLoanCount account ledger <;> simp [h, ge_iff_le]

/-- Witness for C1: with three approved loans on the books a request of 5 at
the concrete example state is rejected. -/
theorem requestLoan_limit_witness :
    (requestLoan exAccount exLedger3 5 10 exTs).2.2 = .limitExceeded :=
  (requestLoan_limit exAccount exLedger3 5 10 exTs (by decide)).1.mpr (by decide)

/-- Claim C2: a withdrawal subtracts exactly the amount from the balance —
there is no sufficient-funds check, so the result can be negative and is not
clamped — and appends exactly one WITHDRAWAL record. -/
theorem withdraw_spec (account : Account) (ledger : List Transaction)
    (amount : Int) (newId : Nat) (ts : Timestamp) (hpos : 0 < amount) :
    withdraw false account ledger amount newId ts =
      .ok ({ account with balance := account.balance - amount },
        ledger ++ [{ id := newId
                     account := account.id
                     amount := amount
                     transaction_type := .WITHDRAWAL
                     loan_approve := false
                     balance_after_transaction := account.balance - amount
                     timestamp := ts }]) ∧
      (account.balance < amount → account.balance - amount < 0) := by
  refine ⟨rfl, fun h => ?_⟩
  omega

/-- Witness for C2: withdrawing 250 from a balance of 100 yields -150, one
WITHDRAWAL record appended. -/
theorem withdraw_spec_witness :
    withdraw false exAccount [] 250 1 exTs =
      .ok ({ exAccount with balance := exAccount.balance - 250 },
        [] ++ [{ id := 1
                 account := exAccount.id
                 amount := 250
                 transaction_type := .WITHDRAWAL
                 loan_approve := false
                 balance_after_transaction := exAccount.balance - 250
                 timestamp := exTs }]) ∧
      (exAccount.balance < 250 → exAccount.balance - 250 < 0) :=
  withdraw_spec exAccount [] 250 1 exTs (by decide)

/-- Claim C4: a deposit adds exactly the amount to the balance and appends
exactly one DEPOSIT record whose balance_after_transaction equals the balance
after the operation. -/
theorem deposit_spec (account : Account) (ledger : List Transaction)
    (amount : Int) (newId : Nat) (ts : Timestamp) (hpos : 0 < amount) :
    deposit false account ledger amount newId ts =
      ({ account with balance := account.balance + amount },
        ledger ++ [{ id := newId
                     account := account.id
                     amount := amount
                     transaction_type := .DEPOSIT
                     loan_approve := false
                     balance_after_transaction := account.balance + amount
                     timestamp := ts }],
        .success) := rfl

/-- Witness for C4: depositing 50 onto a balance of 100 yields 150 and one
DEPOSIT record snapshotting 150. -/
theorem deposit_spec_witness :
    deposit false exAccount [] 50 1 exTs =
      ({ exAccount with balance := exAccount.balance + 50 },
        [] ++ [{ id := 1
                 account := exAccount.id
                 amount := 50
                 transaction_type := .DEPOSIT
                 loan_approve := false
                 balance_after_transaction := exAccount.balance + 50
                 timestamp := exTs }],
        .success) :=
  deposit_spec exAccount [] 50 1 exTs (by decide)

/-- Claim C9: with both bounds supplied, the report contains exactly the
account's records whose timestamp's calendar date lies in the inclusive range
from the start date to the end date. -/
theorem transactionReport_range (ledger : List Transaction) (accId : Nat)
    (d1 d2 : Nat) (t : Transaction) :
    t ∈ transactionReport ledger accId (some d1) (some d2) ↔
      t ∈ ledger ∧ t.account = accId ∧ d1 ≤ t.timestamp.date ∧ t.timestamp.date ≤ d2 := by
  simp [transactionReport, List.mem_filter, and_assoc]
  tauto

/-- Claim C10: when exactly one of the two date bounds is supplied, no date
filtering happens and the report equals the unfiltered per-account listing,
the same as with no bounds at all. -/
theorem transactionReport_single_bound (ledger : List Transaction) (accId : Nat)
    (d1 d2 : Nat) :
    transactionReport ledger accId (some d1) none =
        ledger.filter (fun t => t.account == accId) ∧
      transactionReport ledger accId none (some d2) =
        ledger.filter (fun t => t.account == accId) ∧
      transactionReport ledger accId none none =
        ledger.filter (fun t => t.account == accId) :=
  ⟨rfl, rfl, rfl⟩

/-- Claim C3: paying an approved LOAN record whose owner's balance covers its
amount debits that account by exactly the amount, rewrites the same record in
place to LOAN_PAID with the new balance as snapshot, and creates no record:
the ledger length and the owning account's record count are unchanged.
Ledger ids are assumed distinct, as database primary keys are. -/
theorem payLoan_success (st : BankState) (loanId requester : Nat)
    (loan : Transaction) (account : Account)
    (hids : (st.ledger.map Transaction.id).Nodup)
    (hfind : st.ledger.find? (fun t => t.id == loanId) = some loan)
    (hacc : st.accounts.find? (fun a => a.id == loan.account) = some account)
    (hty : loan.transaction_type = .LOAN)
    (happ : loan.loan_approve = true)
    (hbal : loan.amount ≤ account.balance) :
    payLoan false false st loanId requester =
        .redirected
          ⟨saveBalance st.accounts account.id (account.balance - loan.amount),
           saveLoanPaid st.ledger loan (account.balance - loan.amount)⟩ none ∧
      (saveBalance st.accounts account.id (account.balance - loan.amount)).find?
          (fun a => a.id == loan.account) =
        some { account with balance := account.balance - loan.amount } ∧
      (saveLoanPaid st.ledger loan (account.balance - loan.amount)).find?
          (fun t => t.id == loanId) =
        some { loan with
               transaction_type := .LOAN_PAID
               balance_after_transaction := account.balance - loan.amount } ∧
      (saveLoanPaid st.ledger loan (account.balance - loan.amount)).length =
        st.ledger.length ∧
      ((saveLoanPaid st.ledger loan (account.balance - loan.amount)).filter
          (fun t => t.account == loan.account)).length =
        (st.ledger.filter (fun t => t.account == loan.account)).length := by
  have hmem : loan ∈ st.ledger := List.mem_of_find?_eq_some hfind
  have hinj := List.inj_on_of_nodup_map hids
  refine ⟨?_, ?_, ?_, ?_, ?_⟩
  · simp [payLoan, hfind, hacc, happ, hbal]
  · rw [saveBalance, find?_map_key _ _ _ ?_, hacc]
    · simp
    · intro a
      by_cases h : (a.id == account.id) = true <;> simp [h]
  · rw [saveLoanPaid, find?_map_key _ _ _ ?_, hfind]
    · have hid : (loan.id == loan.id) = true := by simp
      simp
    · intro t
      by_cases h : (t.id == loan.id) = true <;> simp_all
  · simp [saveLoanPaid]
  · rw [saveLoanPaid]
    apply filter_map_length_congr
    intro t ht
    by_cases h : (t.id == loan.id) = true
    · have : t = loan := hinj ht hmem (by simpa using h)
      simp [h, this]
    · simp [h]

/-- Witness for C3: account 0 has 1000, the approved loan is 300; paying it
leaves 700 and the record rewritten to LOAN_PAID with snapshot 700. -/
theorem payLoan_success_witness :
    payLoan false false exPayState 1 7 =
      .redirected ⟨[⟨0, 700⟩],
        [{ exLoanRec with
           transaction_type := .LOAN_PAID
           balance_after_transaction := 700 }]⟩ none :=
  ((payLoan_success exPayState 1 7 exLoanRec ⟨0, 1000⟩ (by decide) (by decide)
      (by decide) rfl rfl (by decide)).1).trans (by decide)

/-- Claim C5: paying an approved loan whose owner's balance is below its
amount changes nothing and reports the insufficient-balance error, whatever
the store would have done on a write. -/
theorem payLoan_insufficient (bf lf : Bool) (st : BankState)
    (loanId requester : Nat) (loan : Transaction) (account : Account)
    (hfind : st.ledger.find? (fun t => t.id == loanId) = some loan)
    (hacc : st.accounts.find? (fun a => a.id == loan.account) = some account)
    (happ : loan.loan_approve = true)
    (hbal : account.balance < loan.amount) :
    payLoan bf lf st loanId requester = .redirected st (some .insufficientBalance) := by
  simp [payLoan, hfind, hacc, happ, not_le.mpr hbal]

/-- Witness for C5: a balance of 100 cannot pay the approved 300 loan; the
state is returned untouched with the insufficient-balance message. -/
theorem payLoan_insufficient_witness :
    payLoan false false exPoorState 1 7 =
      .redirected exPoorState (some .insufficientBalance) :=
  payLoan_insufficient false false exPoorState 1 7 exLoanRec ⟨0, 100⟩
    (by decide) (by decide) rfl (by decide)

/-- Claim C6: paying a record whose loan_approve flag is false is a silent
no-op: the state is unchanged, no error message is emitted, and the handler
redirects to the loan list. -/
theorem payLoan_not_approved (bf lf : Bool) (st : BankState)
    (loanId requester : Nat) (loan : Transaction) (account : Account)
    (hfind : st.ledger.find? (fun t => t.id == loanId) = some loan)
    (hacc : st.accounts.find? (fun a => a.id == loan.account) = some account)
    (happ : loan.loan_approve = false) :
    payLoan bf lf st loanId requester = .redirected st none := by
  simp [payLoan, hfind, hacc, happ]

/-- Witness for C6: paying the pending (unapproved) loan request leaves the
example state untouched and emits no message. -/
theorem payLoan_not_approved_witness :
    payLoan false false exPendingState 1 7 = .redirected exPendingState none :=
  payLoan_not_approved false false exPendingState 1 7
    { exLoanRec with loan_approve := false } ⟨0, 1000⟩ (by decide) (by decide) rfl

/-- Counterexample to C7 as stated: the Withdraw handler has no try/except
around its balance write, so a persistence failure there is NOT converted
into a message plus redirect — it propagates to the caller as a hard fault
(the uncaught exception modelled by the `Except.error` result). -/
theorem withdraw_persistFailure_uncaught :
    withdraw true exAccount [] 40 1 exTs = .error .persistenceFailure := rfl

/-- Claim C7 amended: Deposit and PayLoan catch a persistence failure of the
balance write at the operation boundary and convert it into an error message
plus a redirect, with no state change and no record created; Withdraw does
not guard its balance write, so the failure propagates uncaught to the
caller. -/
theorem persistenceFailure_boundary (account : Account) (ledger : List Transaction)
    (amount : Int) (newId : Nat) (ts : Timestamp) (lf : Bool)
    (st : BankState) (loanId requester : Nat) (loan : Transaction) (acc : Account)
    (hfind : st.ledger.find? (fun t => t.id == loanId) = some loan)
    (hacc : st.accounts.find? (fun a => a.id == loan.account) = some acc)
    (happ : loan.loan_approve = true)
    (hbal : loan.amount ≤ acc.balance) :
    deposit true account ledger amount newId ts = (account, ledger, .depositFailed) ∧
      payLoan true lf st loanId requester = .redirected st (some .paymentFailed) ∧
      withdraw true account ledger amount newId ts = .error .persistenceFailure := by
  refine ⟨rfl, ?_, rfl⟩
  simp [payLoan, hfind, hacc, happ, hbal]

/-- Witness for the amended C7 at concrete inputs: a failing deposit of 50 is
caught, a failing loan payment is caught, a failing withdrawal of 50 escapes
as the error value. -/
theorem persistenceFailure_boundary_witness :
    deposit true exAccount [] 50 1 exTs = (exAccount, [], .depositFailed) ∧
      payLoan true false exPayState 1 7 = .redirected exPayState (some .paymentFailed) ∧
      withdraw true exAccount [] 50 1 exTs = .error .persistenceFailure :=
  persistenceFailure_boundary exAccount [] 50 1 exTs false exPayState 1 7
    exLoanRec ⟨0, 1000⟩ (by decide) (by decide) rfl (by decide)

/-- Claim C8: the record to pay is resolved by id alone — the outcome of the
operation, including which account is debited, is the same whichever
authenticated user issues the request — and an id matching no record yields
the not-found response, whose result carries no state change. -/
theorem payLoan_requester_independent (bf lf : Bool) (st : BankState)
    (loanId u1 u2 : Nat) :
    payLoan bf lf st loanId u1 = payLoan bf lf st loanId u2 ∧
      (st.ledger.find? (fun t => t.id == loanId) = none →
        payLoan bf lf st loanId u1 = .notFound) := by
  refine ⟨rfl, fun h => ?_⟩
  simp [payLoan, h]

/-- Witness for C8: id 99 matches no record of the example state, and the
request fails with the not-found response. -/
theorem payLoan_requester_independent_witness :
    payLoan false false exPayState 99 1 = .notFound :=
  (payLoan_requester_independent false false exPayState 99 1 2).2 (by decide)

end MamarBank
